import Mathlib

/-!
Verification of the page-tiling core of `src/app.py`.

The repository exposes HTTP endpoints converting web pages to PDF.  Its core
logic is the A4 tiling computation inside `convert_url_image_to_a4_pdf`
(`src/app.py`, lines 662–735): given a captured image's pixel height, it
computes `pages_vertical = math.ceil(img_height / a4_height_px)` pages and
emits one HTML `.page` container per page, with a CSS `background-position`
offset of `-col * a4_width_px` / `-row * a4_height_px` per container.

Machine arithmetic is modelled exactly: Python's `math.ceil(a / b)` on
positive integers is the exact rational ceiling, embedded here as
`(a + b - 1) / b` over `ℕ`; Python floats in `convert_url_to_pdf` are
modelled as exact rationals.
-/

/-- `a4_width_px = 794` (src/app.py line 664): the A4 page width in pixels at
96 DPI. -/
def a4_width_px : ℕ := 794

/-- `a4_height_px = 1123` (src/app.py line 665): the A4 page height in pixels
at 96 DPI. -/
def a4_height_px : ℕ := 1123

/-- `pages_horizontal = 1` (src/app.py line 672): the source always produces a
single column ("Siempre 1 porque el ancho ya es A4"). -/
def pages_horizontal : ℕ := 1

/-- `pages_vertical = math.ceil(img_height / a4_height_px)` (src/app.py line
673).  The page-height constant is kept as a parameter (the source binds it to
`a4_height_px`); for `0 < page_height` the expression `(a + b - 1) / b` is the
exact ceiling of `a / b`, which is what `math.ceil` computes on these inputs. -/
def pages_vertical (img_height page_height : ℕ) : ℕ :=
  (img_height + page_height - 1) / page_height

/-- `total_pages = pages_horizontal * pages_vertical` (src/app.py line 674). -/
def total_pages (img_height page_height : ℕ) : ℕ :=
  pages_horizontal * pages_vertical img_height page_height

/-- One iteration of the tiling loop of src/app.py lines 720–730: the loop
indices `row`, `col` and the computed offsets
`x_offset = -col * a4_width_px`, `y_offset = -row * a4_height_px`. -/
structure SrcTile where
  row : ℕ
  col : ℕ
  x_offset : ℤ
  y_offset : ℤ
deriving DecidableEq, Repr

/-- The tile sequence produced by the nested loop of src/app.py lines 720–730:
`for row in range(pages_vertical): for col in range(pages_horizontal): ...`,
recording for each iteration the loop indices and the offsets it computes.
The width/height constants (`a4_width_px`/`a4_height_px` in the source) are
parameters. -/
def tile_grid (img_height page_width page_height : ℕ) : List SrcTile :=
  (List.range (pages_vertical img_height page_height)).flatMap fun row =>
    (List.range pages_horizontal).map fun col =>
      { row := row
        col := col
        x_offset := -(col * page_width : ℤ)
        y_offset := -(row * page_height : ℤ) }

/-- Folding a singleton-producing inner loop into a map: the inner loop of the
source runs exactly once (`pages_horizontal = 1`). -/
theorem bind_range_one_map {α : Type} (l : List ℕ) (f : ℕ → ℕ → α) :
    (l.flatMap fun row => (List.range 1).map fun col => f row col)
      = l.map fun row => f row 0 := by
  induction l with
  | nil => rfl
  | cons a t ih => simp only [List.flatMap_cons, ih, List.map_cons]; rfl

/-- The tile grid is a single column: it is the map over row indices with
`col = 0` and `x_offset = 0`. -/
theorem tile_grid_eq_map (img_height page_width page_height : ℕ) :
    tile_grid img_height page_width page_height
      = (List.range (pages_vertical img_height page_height)).map fun row =>
          { row := row, col := 0, x_offset := 0
            y_offset := -(row * page_height : ℤ) } := by
  unfold tile_grid
  rw [show pages_horizontal = 1 from rfl, bind_range_one_map]
  simp

/-- For a positive divisor, the source's `(a + b - 1) / b` is the rational
ceiling of `a / b`, i.e. exactly what Python's `math.ceil(a / b)` returns. -/
theorem pages_vertical_eq_ceil (img_height page_height : ℕ) (hph : 0 < page_height) :
    (pages_vertical img_height page_height : ℤ)
      = ⌈(img_height : ℚ) / (page_height : ℚ)⌉ := by
  set q : ℕ := pages_vertical img_height page_height with hqdef
  have hq : (img_height + page_height - 1) / page_height = q := rfl
  set r : ℕ := (img_height + page_height - 1) % page_height with hrdef
  have hr : r < page_height := Nat.mod_lt _ hph
  have key : page_height * q + r = img_height + page_height - 1 := by
    rw [← hq]; exact Nat.div_add_mod _ _
  have hone : 1 ≤ img_height + page_height := by omega
  have keyZ : (page_height : ℤ) * q + r = (img_height : ℤ) + page_height - 1 := by
    have h := congrArg (fun n : ℕ => (n : ℤ)) key
    push_cast [Nat.cast_sub hone] at h
    linarith [h]
  have hrZ : (r : ℤ) < page_height := by exact_mod_cast hr
  have hr0 : (0 : ℤ) ≤ r := Int.natCast_nonneg r
  have hmul : (page_height : ℤ) * q = (q : ℤ) * page_height := mul_comm _ _
  have h1 : (img_height : ℤ) ≤ (q : ℤ) * page_height := by linarith
  have h2 : (q : ℤ) * page_height < (img_height : ℤ) + page_height := by linarith
  have hphQ : (0 : ℚ) < (page_height : ℚ) := by exact_mod_cast hph
  symm
  rw [Int.ceil_eq_iff]
  constructor
  · push_cast
    rw [lt_div_iff₀ hphQ]
    have h2Q : (q : ℚ) * page_height < (img_height : ℚ) + page_height := by
      exact_mod_cast h2
    nlinarith [h2Q]
  · push_cast
    rw [div_le_iff₀ hphQ]
    exact_mod_cast h1

/-- C1: for every positive image height and page height, the tiling
computation's page count is exactly the ceiling of the image height divided by
the page height (and at least 1), and the tile sequence has that many tiles. -/
theorem tiling_pageCount_eq_ceil (img_height page_width page_height : ℕ)
    (hh : 0 < img_height) (hph : 0 < page_height) :
    (total_pages img_height page_height : ℤ)
        = ⌈(img_height : ℚ) / (page_height : ℚ)⌉
      ∧ 0 < total_pages img_height page_height
      ∧ (tile_grid img_height page_width page_height).length
        = total_pages img_height page_height := by
  have htot : total_pages img_height page_height
      = pages_vertical img_height page_height := by
    unfold total_pages pages_horizontal; exact Nat.one_mul _
  refine ⟨?_, ?_, ?_⟩
  · rw [htot]; exact pages_vertical_eq_ceil _ _ hph
  · rw [htot]
    unfold pages_vertical
    rw [Nat.lt_iff_add_one_le, Nat.le_div_iff_mul_le hph]
    omega
  · rw [tile_grid_eq_map]; simp [htot]

/-- C1 witness: concrete instance at the scenario values of §8. -/
theorem tiling_pageCount_eq_ceil_witness :
    (total_pages 2246 1123 : ℤ) = ⌈(2246 : ℚ) / (1123 : ℚ)⌉
      ∧ 0 < total_pages 2246 1123
      ∧ (tile_grid 2246 794 1123).length = total_pages 2246 1123 :=
  tiling_pageCount_eq_ceil 2246 794 1123 (by decide) (by decide)

/-- C2: for every positive image height and page height, the tile sequence is
a single column — tile `i` (0-indexed) is produced with `col = 0`, horizontal
offset `0` and vertical offset `-(i * page_height)` — and the tiles are
totally ordered by strictly ascending row index. -/
theorem tile_grid_single_column (img_height page_width page_height : ℕ)
    (hh : 0 < img_height) (hph : 0 < page_height) :
    (∀ i (hi : i < (tile_grid img_height page_width page_height).length),
        (tile_grid img_height page_width page_height).get ⟨i, hi⟩
          = { row := i, col := 0, x_offset := 0
              y_offset := -(i * page_height : ℤ) })
      ∧ List.Pairwise (fun a b => a.row < b.row)
          (tile_grid img_height page_width page_height) := by
  constructor
  · intro i hi
    rw [List.get_eq_getElem,
      List.getElem_of_eq (tile_grid_eq_map img_height page_width page_height) hi]
    simp
  · rw [tile_grid_eq_map, List.pairwise_map]
    simpa using List.pairwise_lt_range _

/-- C2 witness: concrete instance at image height 2246, page 794×1123. -/
theorem tile_grid_single_column_witness :
    (∀ i (hi : i < (tile_grid 2246 794 1123).length),
        (tile_grid 2246 794 1123).get ⟨i, hi⟩
          = { row := i, col := 0, x_offset := 0
              y_offset := -(i * 1123 : ℤ) })
      ∧ List.Pairwise (fun a b => a.row < b.row) (tile_grid 2246 794 1123) :=
  tile_grid_single_column 2246 794 1123 (by decide) (by decide)

/-- C3: for every positive image height and page height the tile sequence is
nonempty, its first tile has vertical offset `0`, and consecutive tiles'
vertical offsets strictly decrease by exactly the page height. -/
theorem tile_grid_offsets_arithmetic (img_height page_width page_height : ℕ)
    (hh : 0 < img_height) (hph : 0 < page_height) :
    0 < (tile_grid img_height page_width page_height).length
      ∧ (∀ h0 : 0 < (tile_grid img_height page_width page_height).length,
          ((tile_grid img_height page_width page_height).get ⟨0, h0⟩).y_offset = 0)
      ∧ ∀ i (hi : i + 1 < (tile_grid img_height page_width page_height).length),
          ((tile_grid img_height page_width page_height).get
              ⟨i, Nat.lt_of_succ_lt hi⟩).y_offset
            - ((tile_grid img_height page_width page_height).get ⟨i + 1, hi⟩).y_offset
          = page_height := by
  have hsc := tile_grid_single_column img_height page_width page_height hh hph
  refine ⟨?_, ?_, ?_⟩
  · rw [tile_grid_eq_map]
    simp only [List.length_map, List.length_range]
    unfold pages_vertical
    rw [Nat.lt_iff_add_one_le, Nat.le_div_iff_mul_le hph]
    omega
  · intro h0
    rw [hsc.1 0 h0]
    simp
  · intro i hi
    rw [hsc.1 i (Nat.lt_of_succ_lt hi), hsc.1 (i + 1) hi]
    show -(↑i * ↑page_height) - -(↑(i + 1) * ↑page_height) = (page_height : ℤ)
    push_cast
    ring

/-- C3 witness: concrete instance at image height 2246, page 794×1123. -/
theorem tile_grid_offsets_arithmetic_witness :
    0 < (tile_grid 2246 794 1123).length
      ∧ (∀ h0 : 0 < (tile_grid 2246 794 1123).length,
          ((tile_grid 2246 794 1123).get ⟨0, h0⟩).y_offset = 0)
      ∧ ∀ i (hi : i + 1 < (tile_grid 2246 794 1123).length),
          ((tile_grid 2246 794 1123).get ⟨i, Nat.lt_of_succ_lt hi⟩).y_offset
            - ((tile_grid 2246 794 1123).get ⟨i + 1, hi⟩).y_offset
          = 1123 :=
  tile_grid_offsets_arithmetic 2246 794 1123 (by decide) (by decide)

/-- C4 counterexample: the claim asserts that image height 3370 with page
height 1123 yields a page count of 3, but `3 * 1123 = 3369 < 3370`, so the
code computes `math.ceil(3370 / 1123) = 4` pages. -/
theorem pageCount_3370_is_four_not_three :
    total_pages 3370 1123 = 4 ∧ total_pages 3370 1123 ≠ 3 := by decide

/-- C4 (amended): with page height 1123 — image height equal to the page
height yields exactly 1 tile; page height plus 1 yields exactly 2 tiles;
image height 2246 yields page count 2 with tiles
`[{row 0, offset 0}, {row 1, offset -1123}]`; image height 3369 (which is
exactly 3 × 1123) yields page count 3, while 3370 yields page count 4; image
height 1123 yields page count 1 with the single tile `{row 0, offset 0}`. -/
theorem tiling_boundary_scenarios :
    total_pages 1123 1123 = 1
      ∧ (tile_grid 1123 794 1123).length = 1
      ∧ total_pages 1124 1123 = 2
      ∧ (tile_grid 1124 794 1123).length = 2
      ∧ total_pages 2246 1123 = 2
      ∧ tile_grid 2246 794 1123
          = ([⟨0, 0, 0, 0⟩, ⟨1, 0, 0, -1123⟩] : List SrcTile)
      ∧ total_pages 3369 1123 = 3
      ∧ total_pages 3370 1123 = 4
      ∧ tile_grid 1123 794 1123 = ([⟨0, 0, 0, 0⟩] : List SrcTile) := by decide

/-- The per-tile markup emitted by the loop body at src/app.py lines 726–730
(whitespace normalized): one `.page` container holding one `.image-section`
carrying this tile's `background-position` offsets. -/
def page_div_html (x_offset y_offset : ℤ) : String :=
  "<div class=\"page\">\n"
    ++ "  <div class=\"image-section\" style=\"background-position: "
    ++ toString x_offset ++ "px " ++ toString y_offset ++ "px;\"></div>\n"
    ++ "</div>\n"

/-- The `.page` CSS rule from the `<style>` block at src/app.py lines 694–702:
an A4-sized box (`210mm × 297mm`), clipped (`overflow: hidden`), with a forced
page break after it. -/
def page_rule_css : String :=
  ".page \x7b width: 210mm; height: 297mm; page-break-after: always; "
    ++ "overflow: hidden; position: relative; background: white; "
    ++ "box-sizing: border-box; \x7d"

/-- The `.page:last-child` CSS rule at src/app.py lines 703–705: no forced
break after the final container. -/
def page_last_child_css : String :=
  ".page:last-child \x7b page-break-after: auto; \x7d"

/-- The `.image-section` CSS rule at src/app.py lines 706–713: the full source
image at its natural size, positioned absolutely inside the clipping page
box. -/
def image_section_css (img_width img_height : ℕ) (image_data_url : String) : String :=
  ".image-section \x7b position: absolute; width: " ++ toString img_width
    ++ "px; height: " ++ toString img_height
    ++ "px; background-image: url(\x27" ++ image_data_url
    ++ "\x27); background-repeat: no-repeat; background-size: "
    ++ toString img_width ++ "px " ++ toString img_height ++ "px; \x7d"

/-- The fixed document head of the generated HTML, src/app.py lines 679–717
(whitespace normalized). -/
def html_head (img_width img_height : ℕ) (image_data_url : String) : String :=
  "<!DOCTYPE html>\n<html>\n<head>\n<meta charset=\"UTF-8\">\n<style>\n"
    ++ "@page \x7b size: A4; margin: 0; \x7d\n"
    ++ "body \x7b margin: 0; padding: 0; font-family: Arial, sans-serif; \x7d\n"
    ++ page_rule_css ++ "\n" ++ page_last_child_css ++ "\n"
    ++ image_section_css img_width img_height image_data_url
    ++ "\n</style>\n</head>\n<body>\n"

/-- The closing markup appended at src/app.py lines 732–735. -/
def html_footer : String := "</body>\n</html>\n"

/-- The container sequence appended by the loop at src/app.py lines 720–730:
one string per iteration of the nested `row`/`col` loop. -/
def html_page_divs (img_height page_width page_height : ℕ) : List String :=
  (List.range (pages_vertical img_height page_height)).flatMap fun (row : ℕ) =>
    (List.range pages_horizontal).map fun (col : ℕ) =>
      page_div_html (-(col * page_width : ℤ)) (-(row * page_height : ℤ))

/-- The full generated HTML document of src/app.py lines 679–735: head, then
the loop-appended containers, then the footer. -/
def html_content (img_width img_height : ℕ) (image_data_url : String) : String :=
  html_head img_width img_height image_data_url
    ++ String.join (html_page_divs img_height a4_width_px a4_height_px)
    ++ html_footer

/-- Modelled from the spec (§3): the `TileLayout` entity.  The source never
materializes this structure (it interpolates offsets straight into markup);
this definition follows the spec's words: `ceil(imageHeight / pageHeight)`
tiles, tile `i` with row index `i`, horizontal offset `0`, vertical offset
`-(i * pageHeight)`, ordered by row index. -/
structure Tile where
  row : ℕ
  x_offset : ℤ
  y_offset : ℤ
deriving DecidableEq, Repr

/-- Modelled from the spec (§3/§4): the TileLayout for a given image height
and page height. -/
def tileLayoutSpec (img_height page_height : ℕ) : List Tile :=
  (List.range ((img_height + page_height - 1) / page_height)).map fun i =>
    { row := i, x_offset := 0, y_offset := -(i * page_height : ℤ) }

set_option maxRecDepth 8192 in
/-- C5: the HTML assembly emits exactly one `.page` container per tile of the
TileLayout, in tile order, each carrying that tile's background offset; the
stylesheet clips every container to the A4 page box (`210mm × 297mm`,
`overflow: hidden`) and forces a page break after every container (`.page`)
except the last (`.page:last-child`), so containers — hence output PDF
pages — map 1:1, in order, to tile layout entries. -/
theorem html_one_container_per_tile (img_width img_height : ℕ)
    (image_data_url : String) :
    html_page_divs img_height a4_width_px a4_height_px
        = (tileLayoutSpec img_height a4_height_px).map
            (fun t => page_div_html t.x_offset t.y_offset)
      ∧ (html_page_divs img_height a4_width_px a4_height_px).length
          = (tileLayoutSpec img_height a4_height_px).length
      ∧ html_content img_width img_height image_data_url
          = html_head img_width img_height image_data_url
              ++ String.join (html_page_divs img_height a4_width_px a4_height_px)
              ++ html_footer
      ∧ "page-break-after: always".data <:+: page_rule_css.data
      ∧ "page-break-after: auto".data <:+: page_last_child_css.data
      ∧ "width: 210mm; height: 297mm".data <:+: page_rule_css.data
      ∧ "overflow: hidden".data <:+: page_rule_css.data := by
  have hdivs : html_page_divs img_height a4_width_px a4_height_px
      = (List.range (pages_vertical img_height a4_height_px)).map fun (row : ℕ) =>
          page_div_html (-((0 : ℕ) * a4_width_px : ℤ)) (-(row * a4_height_px : ℤ)) := by
    unfold html_page_divs
    rw [show pages_horizontal = 1 from rfl, bind_range_one_map]
  have hspec : (tileLayoutSpec img_height a4_height_px).map
        (fun t => page_div_html t.x_offset t.y_offset)
      = (List.range (pages_vertical img_height a4_height_px)).map fun (i : ℕ) =>
          page_div_html 0 (-(i * a4_height_px : ℤ)) := by
    unfold tileLayoutSpec pages_vertical
    rw [List.map_map]
    rfl
  have hmap : html_page_divs img_height a4_width_px a4_height_px
      = (tileLayoutSpec img_height a4_height_px).map
          (fun t => page_div_html t.x_offset t.y_offset) := by
    rw [hdivs, hspec]
    simp
  exact ⟨hmap, by rw [hmap, List.length_map], rfl,
    by decide, by decide, by decide, by decide⟩

/-- `max_height = 50000` (src/app.py line 579): the maximum content height,
"Limitar altura máxima para evitar problemas de memoria". -/
def max_height : ℕ := 50000

/-- The content-height validation and clamp of src/app.py lines 570–580: a
missing or non-positive measured height aborts the request with an HTTP 500
error (`if not content_height or content_height <= 0`); otherwise the height
is clamped to `max_height` (`content_height = min(content_height, max_height)`). -/
def clamp_content_height (content_height : ℤ) : Except String ℤ :=
  if content_height ≤ 0 then
    Except.error "No se pudo obtener la altura valida de la pagina"
  else
    Except.ok (min content_height (max_height : ℤ))

/-- The captured-image dimension validation of src/app.py lines 634–642:
`img_width, img_height = image.size`, rejected with an HTTP 500 error when
either is non-positive (`if img_width <= 0 or img_height <= 0`). -/
def validate_image_dims (img_width img_height : ℤ) : Except String (ℕ × ℕ) :=
  if img_width ≤ 0 ∨ img_height ≤ 0 then
    Except.error "Las dimensiones de la imagen capturada son invalidas"
  else
    Except.ok (img_width.toNat, img_height.toNat)

/-- The dimension-handling core of `convert_url_image_to_a4_pdf`
(src/app.py lines 553–676), with the captured image's dimensions taken as
inputs (the screenshot bytes come from the external browser engine): validate
and clamp the measured content height, validate the captured image's
dimensions, then compute the tile sequence from the captured image height. -/
def convert_core (content_height img_width img_height : ℤ) :
    Except String (List SrcTile) :=
  match clamp_content_height content_height with
  | Except.error e => Except.error e
  | Except.ok _ =>
    match validate_image_dims img_width img_height with
    | Except.error e => Except.error e
    | Except.ok wh => Except.ok (tile_grid wh.2 a4_width_px a4_height_px)

/-- Modelled from the spec: the page renderer/capture collaborator of §6 is
external to this repository (a headless-browser engine); per §6 it "applies a
forced fixed pixel width, measures the resulting content's pixel height, and
returns a rasterized full-page image plus its width/height".  It is modelled
as returning an image of exactly the forced A4 width and the requested
(clamped) content height. -/
def capture_image (content_height : ℤ) : ℤ × ℤ :=
  ((a4_width_px : ℤ), content_height)

/-- The end-to-end dimension pipeline of `convert_url_image_to_a4_pdf`
(src/app.py lines 553–676), with the external capture step modelled from the
spec (`capture_image`): measure, validate and clamp, capture, validate the
image, tile. -/
def convert_url_image_to_a4_core (measured_height : ℤ) :
    Except String (List SrcTile) :=
  match clamp_content_height measured_height with
  | Except.error e => Except.error e
  | Except.ok clamped =>
    match validate_image_dims (capture_image clamped).1 (capture_image clamped).2 with
    | Except.error e => Except.error e
    | Except.ok wh => Except.ok (tile_grid wh.2 a4_width_px a4_height_px)

/-- On fully positive inputs the pipeline succeeds and returns the tile
sequence computed from the captured image height. -/
theorem convert_core_ok (content_height img_width img_height : ℤ)
    (hc : 0 < content_height) (hw : 0 < img_width) (hh : 0 < img_height) :
    convert_core content_height img_width img_height
      = Except.ok (tile_grid img_height.toNat a4_width_px a4_height_px) := by
  unfold convert_core clamp_content_height validate_image_dims
  rw [if_neg (by omega), if_neg (show ¬(img_width ≤ 0 ∨ img_height ≤ 0) by omega)]

/-- C6: with the capture step modelled from the spec, for every positive
measured content height the pipeline clamps it to the constant
`max_height = 50000` before tiling: the tile sequence is computed on
`min(h, 50000)`, which never exceeds that constant. -/
theorem measured_height_clamped (measured_height : ℤ)
    (hm : 0 < measured_height) :
    convert_url_image_to_a4_core measured_height
        = Except.ok (tile_grid (min measured_height.toNat max_height)
            a4_width_px a4_height_px)
      ∧ min measured_height.toNat max_height ≤ max_height := by
  have hmx : (max_height : ℤ) = 50000 := rfl
  have hwx : (a4_width_px : ℤ) = 794 := rfl
  constructor
  · unfold convert_url_image_to_a4_core clamp_content_height capture_image
      validate_image_dims
    rw [if_neg (by omega)]
    dsimp only
    rw [if_neg (show ¬((a4_width_px : ℤ) ≤ 0
        ∨ min measured_height (max_height : ℤ) ≤ 0) by omega)]
    have htn : (min measured_height (max_height : ℤ)).toNat
        = min measured_height.toNat max_height := by omega
    dsimp only
    rw [htn]
  · exact min_le_right _ _

/-- C6 witness: a concrete positive measured height. -/
theorem measured_height_clamped_witness :
    convert_url_image_to_a4_core 3000
        = Except.ok (tile_grid (min (3000 : ℤ).toNat max_height)
            a4_width_px a4_height_px)
      ∧ min (3000 : ℤ).toNat max_height ≤ max_height :=
  measured_height_clamped 3000 (by decide)

/-- C7: the pipeline errors exactly when the measured content height, the
captured image width, or the captured image height is non-positive (and then
produces no tile layout); on all positive inputs it succeeds with the tile
layout and no such error is raised. -/
theorem nonpositive_dims_rejected (content_height img_width img_height : ℤ) :
    ((∃ e, convert_core content_height img_width img_height = Except.error e)
        ↔ content_height ≤ 0 ∨ img_width ≤ 0 ∨ img_height ≤ 0)
      ∧ (0 < content_height → 0 < img_width → 0 < img_height →
          convert_core content_height img_width img_height
            = Except.ok (tile_grid img_height.toNat a4_width_px a4_height_px)) := by
  constructor
  · constructor
    · rintro ⟨e, he⟩
      by_contra hcon
      push_neg at hcon
      obtain ⟨h1, h2, h3⟩ := hcon
      rw [convert_core_ok _ _ _ (by omega) (by omega) (by omega)] at he
      exact Except.noConfusion he
    · intro hdisj
      unfold convert_core clamp_content_height validate_image_dims
      by_cases hc : content_height ≤ 0
      · rw [if_pos hc]
        exact ⟨_, rfl⟩
      · have hwh : img_width ≤ 0 ∨ img_height ≤ 0 := by tauto
        rw [if_neg hc, if_pos hwh]
        exact ⟨_, rfl⟩
  · intro hc hw hh
    exact convert_core_ok _ _ _ hc hw hh

/-- C7 witness: concrete positive instance. -/
theorem nonpositive_dims_rejected_witness :
    convert_core 100 794 2246
      = Except.ok (tile_grid (2246 : ℤ).toNat a4_width_px a4_height_px) :=
  (nonpositive_dims_rejected 100 794 2246).2 (by decide) (by decide) (by decide)

/-- C8: the image width is not validated against the page width — for any two
positive captured widths with the same positive heights, the pipeline
succeeds and produces identical tile sequences: the layout is independent of
the image width. -/
theorem layout_independent_of_width (w1 w2 content_height img_height : ℤ)
    (hw1 : 0 < w1) (hw2 : 0 < w2) (hc : 0 < content_height)
    (hh : 0 < img_height) :
    convert_core content_height w1 img_height
        = convert_core content_height w2 img_height
      ∧ convert_core content_height w1 img_height
          = Except.ok (tile_grid img_height.toNat a4_width_px a4_height_px) := by
  have e1 := convert_core_ok content_height w1 img_height hc hw1 hh
  have e2 := convert_core_ok content_height w2 img_height hc hw2 hh
  exact ⟨e1.trans e2.symm, e1⟩

/-- C8 witness: widths 795 and 1600 produce the same layout. -/
theorem layout_independent_of_width_witness :
    convert_core 100 795 2246 = convert_core 100 1600 2246
      ∧ convert_core 100 795 2246
          = Except.ok (tile_grid (2246 : ℤ).toNat a4_width_px a4_height_px) :=
  layout_independent_of_width 795 1600 100 2246
    (by decide) (by decide) (by decide) (by decide)

/-- C9: determinism and idempotence — the tiling computation is embedded as a
pure total function, so equal inputs (image height, page width, page height)
always yield deeply equal tile sequences, page counts and generated
containers; repeated invocation cannot differ and touches no state. -/
theorem tiler_deterministic (h1 h2 pw1 pw2 ph1 ph2 : ℕ)
    (hh : h1 = h2) (hpw : pw1 = pw2) (hph : ph1 = ph2) :
    tile_grid h1 pw1 ph1 = tile_grid h2 pw2 ph2
      ∧ total_pages h1 ph1 = total_pages h2 ph2
      ∧ html_page_divs h1 pw1 ph1 = html_page_divs h2 pw2 ph2 := by
  subst hh; subst hpw; subst hph
  exact ⟨rfl, rfl, rfl⟩

/-- C9 witness: concrete identical inputs. -/
theorem tiler_deterministic_witness :
    tile_grid 2246 794 1123 = tile_grid 2246 794 1123
      ∧ total_pages 2246 1123 = total_pages 2246 1123
      ∧ html_page_divs 2246 794 1123 = html_page_divs 2246 794 1123 :=
  tiler_deterministic 2246 2246 794 794 1123 1123 rfl rfl rfl

/-- `width_inches = 8.27` (src/app.py line 244): the fixed A4 width in inches
used by `convert_url_to_pdf`. -/
def width_inches : ℚ := 8.27

/-- The page-height computation of `convert_url_to_pdf` (src/app.py lines
355–363), Python float arithmetic modelled exactly over `ℚ`:
`height_inches = final_height / 96.0`; a height below one inch falls back to
the A4 default `11.69`; then the safety margin `0.2` is added. -/
def height_inches (final_height : ℕ) : ℚ :=
  (if (final_height : ℚ) / 96 < 1 then (11.69 : ℚ)
   else (final_height : ℚ) / 96) + 0.2

/-- C10: in the single-page URL conversion, the emitted PDF page height in
inches is `h/96 + 0.2` when `h/96 ≥ 1` and `11.69 + 0.2` when `h/96 < 1`,
while the page width is always `8.27` inches. -/
theorem convert_url_pdf_page_size (final_height : ℕ) :
    (1 ≤ (final_height : ℚ) / 96 →
        height_inches final_height = (final_height : ℚ) / 96 + 0.2)
      ∧ ((final_height : ℚ) / 96 < 1 →
        height_inches final_height = 11.69 + 0.2)
      ∧ width_inches = 8.27 := by
  refine ⟨fun hge => ?_, fun hlt => ?_, rfl⟩
  · unfold height_inches
    rw [if_neg (not_lt.mpr hge)]
  · unfold height_inches
    rw [if_pos hlt]

/-- C10 witness: heights 192 (two inches) and 48 (half an inch). -/
theorem convert_url_pdf_page_size_witness :
    height_inches 192 = (192 : ℚ) / 96 + 0.2
      ∧ height_inches 48 = 11.69 + 0.2 :=
  ⟨(convert_url_pdf_page_size 192).1 (by norm_num),
   (convert_url_pdf_page_size 48).2.1 (by norm_num)⟩
